import Mathlib

/-!
Verification of the markdown-to-slides converter (`server.js`).

The development shallowly embeds the core of the `/convert` route and the
OAuth callback route:

* the slide segmenter `markdownText.split('---').map(s => s.trim()).filter(Boolean)`;
* the token-stream scan that extracts a slide title and body lines from the
  markdown-it block tokens of one fragment;
* the construction of the seven `requests` entries pushed per fragment
  (createSlide, two createShape, two insertText, two updateTextStyle),
  including the `` `slide_${Date.now()}_${slideCount}` ``-style object ids;
* the authentication guard and external-call structure of `/convert` and of
  `/auth/google/callback`.

Machine strings are embedded as Lean `String`; the JavaScript `split`,
`trim`, `join` and decimal number-to-string conversions are defined
explicitly below so that every definition evaluates by kernel reduction.
The markdown-it parser itself is an external collaborator (an npm
dependency, not part of this repository); its output is modelled by the
`Token` type below, following the spec's Block Token data model, and the
scan is verified over arbitrary token streams.
-/

namespace MdToSlides

/-- Block tokens of the parsed markdown fragment, as produced by the external
markdown-it collaborator and consumed by the scan in `server.js`
(lines 118-144).  The scan inspects only the four type strings
`heading_open`, `paragraph_open`, `list_item_open` and `inline`; all other
token types are represented by the remaining constructors and ignored. -/
inductive Token where
  | heading_open
  | heading_close
  | paragraph_open
  | paragraph_close
  | list_item_open
  | list_item_close
  | bullet_list_open
  | bullet_list_close
  | inline (content : String)
  | other
deriving DecidableEq, Repr

/-- Result of the per-fragment token scan: the `slideTitle` variable and the
`slideBodyElements` array of `server.js`. -/
structure SlideSpec where
  title : String
  body : List String
deriving DecidableEq, Repr

/-- The forward scan over the token stream (`server.js` lines 118-144):
a `heading_open` immediately followed by an `inline` token sets the title and
skips the inline token; a `paragraph_open` or `list_item_open` immediately
followed by an `inline` token appends one body line (list items get the
bullet marker) and skips the inline token; every other token is skipped. -/
def scanTokens : List Token → String → List String → String × List String
  | [], t, b => (t, b)
  | Token.heading_open :: Token.inline c :: rest, _, b => scanTokens rest c b
  | Token.paragraph_open :: Token.inline c :: rest, t, b => scanTokens rest t (b ++ [c])
  | Token.list_item_open :: Token.inline c :: rest, t, b => scanTokens rest t (b ++ ["• " ++ c])
  | _ :: rest, t, b => scanTokens rest t b

/-- The scan of one fragment, started from the initial
`slideTitle = ''`, `slideBodyElements = []` of `server.js`. -/
def scanSlide (tokens : List Token) : SlideSpec :=
  { title := (scanTokens tokens "" []).1, body := (scanTokens tokens "" []).2 }

/-- Spec-side description of `bodyLines`: one entry per paragraph-open or
list-item-open token immediately followed by an inline token, in document
order, the entry being the inline token's text, with list-item entries
prefixed by the bullet marker.  Written from the spec's words for claim C2
and compared with the scan. -/
def specBodyLines : List Token → List String
  | Token.paragraph_open :: Token.inline c :: rest => c :: specBodyLines rest
  | Token.list_item_open :: Token.inline c :: rest => ("• " ++ c) :: specBodyLines rest
  | _ :: rest => specBodyLines rest
  | [] => []

/-- Number of paragraph/list-item blocks (an opening token immediately
followed by its inline content token) in a token stream. -/
def blockCount : List Token → Nat
  | Token.paragraph_open :: Token.inline _ :: rest => 1 + blockCount rest
  | Token.list_item_open :: Token.inline _ :: rest => 1 + blockCount rest
  | _ :: rest => blockCount rest
  | [] => 0

/-- Whether the token stream contains a `heading_open` immediately followed
by an `inline` token (the only pattern through which the scan assigns the
slide title). -/
def hasHeadingPair : List Token → Bool
  | Token.heading_open :: Token.inline _ :: _ => true
  | _ :: rest => hasHeadingPair rest
  | [] => false

/-- Whether the first token of the stream is an `inline` token. -/
def headIsInline : List Token → Bool
  | Token.inline _ :: _ => true
  | _ => false

/-- JavaScript whitespace recognised by `String.prototype.trim` (restricted
to the ASCII range, which covers every character the routes handle). -/
def isJsSpace (c : Char) : Bool :=
  c == ' ' || c == '\t' || c == '\n' || c == '\r' || c == '\x0b' || c == '\x0c'

/-- JavaScript `s.trim()`: drop leading and trailing whitespace. -/
def jsTrim (s : String) : String :=
  ⟨((s.data.dropWhile isJsSpace).reverse.dropWhile isJsSpace).reverse⟩

/-- JavaScript `s.split('---')` on the character list: cut at every
leftmost, non-overlapping occurrence of the three-dash delimiter.  The first
argument is the remaining input, the second the reversed current piece. -/
def splitDashes : List Char → List Char → List (List Char)
  | '-' :: '-' :: '-' :: rest, acc => acc.reverse :: splitDashes rest []
  | c :: rest, acc => splitDashes rest (c :: acc)
  | [], acc => [acc.reverse]

/-- JavaScript `markdownText.split('---')` as a `String` operation. -/
def jsSplitDashes (s : String) : List String :=
  (splitDashes s.data []).map (fun l => ⟨l⟩)

/-- The slide segmenter of `server.js` line 93:
`markdownText.split('---').map(s => s.trim()).filter(Boolean)`. -/
def segment (markdownText : String) : List String :=
  ((jsSplitDashes markdownText).map jsTrim).filter (fun s => s != "")

/-- Decimal digits of `n`, most significant first, built with an explicit
fuel argument so that the definition is structurally recursive and reduces
inside the kernel.  `toDigitsAux (n + 1) n []` is the digit list of `n`. -/
def toDigitsAux : Nat → Nat → List Char → List Char
  | 0, _, acc => acc
  | fuel + 1, n, acc =>
    if n < 10 then Char.ofNat (48 + n % 10) :: acc
    else toDigitsAux fuel (n / 10) (Char.ofNat (48 + n % 10) :: acc)

/-- JavaScript number-to-string conversion for a natural number, as used by
the template literals building object ids and the `'Slide ' + (slideCount + 1)`
fallback title. -/
def natRepr (n : Nat) : String :=
  ⟨toDigitsAux (n + 1) n []⟩

/-- Reference recursion for the decimal digits of `n`, used in proofs. -/
def natDigitsRec (n : Nat) : List Char :=
  if n < 10 then [Char.ofNat (48 + n % 10)]
  else natDigitsRec (n / 10) ++ [Char.ofNat (48 + n % 10)]
decreasing_by exact Nat.div_lt_self (by omega) (by omega)

/-- Value of a decimal digit list, used to invert `natDigitsRec` in proofs. -/
def digitsToNat (l : List Char) : Nat :=
  l.foldl (fun a c => 10 * a + (c.toNat - 48)) 0

/-- The slide object id `` `slide_${Date.now()}_${slideCount}` `` of
`server.js` line 147. -/
def slideObjectId (now slideCount : Nat) : String :=
  "slide_" ++ natRepr now ++ "_" ++ natRepr slideCount

/-- The title shape object id `` `title_shape_${Date.now()}_${slideCount}` ``
of `server.js` line 160. -/
def titleShapeObjectId (now slideCount : Nat) : String :=
  "title_shape_" ++ natRepr now ++ "_" ++ natRepr slideCount

/-- The body shape object id `` `body_shape_${Date.now()}_${slideCount}` ``
of `server.js` line 208. -/
def bodyShapeObjectId (now slideCount : Nat) : String :=
  "body_shape_" ++ natRepr now ++ "_" ++ natRepr slideCount

/-- A magnitude with a unit, e.g. `{ magnitude: 600, unit: 'PT' }`. -/
structure Dimension where
  magnitude : Nat
  unit : String
deriving DecidableEq, Repr

/-- The `size` object of a `createShape` request. -/
structure ShapeSize where
  width : Dimension
  height : Dimension
deriving DecidableEq, Repr

/-- The `transform` object of a `createShape` request. -/
structure Transform where
  scaleX : Nat
  scaleY : Nat
  translateX : Nat
  translateY : Nat
  unit : String
deriving DecidableEq, Repr

/-- The `elementProperties` object of a `createShape` request. -/
structure ElementProperties where
  pageObjectId : String
  transform : Transform
  size : ShapeSize
deriving DecidableEq, Repr

/-- The `style` object of an `updateTextStyle` request; `bold` is absent in
the body-style request. -/
structure TextStyle where
  fontSize : Dimension
  bold : Option Bool
deriving DecidableEq, Repr

/-- One entry of the `requests` array assembled by the `/convert` route:
a tagged variant of the four request shapes pushed by `server.js`. -/
inductive MutationOp where
  | createSlide (objectId : String) (insertionIndex : Nat) (predefinedLayout : String)
  | createShape (objectId : String) (shapeType : String) (elementProperties : ElementProperties)
  | insertText (objectId : String) (text : String)
  | updateTextStyle (objectId : String) (textRangeType : String) (style : TextStyle)
      (fields : String)
deriving DecidableEq, Repr

/-- The seven `requests.push(...)` calls performed for one fragment by
`server.js` lines 146-252, in program order, with one `Date.now()` reading
per generated object id (`now1` for the slide, `now2` for the title shape,
`now3` for the body shape). -/
def buildSlideRequests (tokens : List Token) (slideCount : Nat)
    (now1 now2 now3 : Nat) : List MutationOp :=
  let scanned := scanTokens tokens "" []
  let slideTitle := scanned.1
  let slideBodyElements := scanned.2
  let slideObjId := slideObjectId now1 slideCount
  let requests : List MutationOp := []
  let requests := requests ++
    [MutationOp.createSlide slideObjId slideCount "TITLE_AND_BODY"]
  let titleShapeObjId := titleShapeObjectId now2 slideCount
  let requests := requests ++
    [MutationOp.createShape titleShapeObjId "TEXT_BOX"
      { pageObjectId := slideObjId,
        transform := { scaleX := 1, scaleY := 1, translateX := 50, translateY := 50,
                       unit := "PT" },
        size := { width := { magnitude := 600, unit := "PT" },
                  height := { magnitude := 50, unit := "PT" } } }]
  let requests := requests ++
    [MutationOp.insertText titleShapeObjId
      (if slideTitle = "" then "Slide " ++ natRepr (slideCount + 1) else slideTitle)]
  let requests := requests ++
    [MutationOp.updateTextStyle titleShapeObjId "ALL"
      { fontSize := { magnitude := 24, unit := "PT" }, bold := some true }
      "fontSize,bold"]
  let bodyShapeObjId := bodyShapeObjectId now3 slideCount
  let requests := requests ++
    [MutationOp.createShape bodyShapeObjId "TEXT_BOX"
      { pageObjectId := slideObjId,
        transform := { scaleX := 1, scaleY := 1, translateX := 50, translateY := 120,
                       unit := "PT" },
        size := { width := { magnitude := 600, unit := "PT" },
                  height := { magnitude := 350, unit := "PT" } } }]
  let requests := requests ++
    [MutationOp.insertText bodyShapeObjId (String.intercalate "\n\n" slideBodyElements)]
  let requests := requests ++
    [MutationOp.updateTextStyle bodyShapeObjId "ALL"
      { fontSize := { magnitude := 14, unit := "PT" }, bold := none }
      "fontSize"]
  requests

/-- The `for (const slideMd of slidesContent)` loop of the `/convert` route,
carrying the running `slideCount`.  `parse` abstracts the external
markdown-it collaborator (`markdownit.parse`), and `times` gives the three
`Date.now()` readings taken while building the slide of each index. -/
def convertRequestsAux (parse : String → List Token) (times : Nat → Nat × Nat × Nat) :
    List String → Nat → List MutationOp
  | [], _ => []
  | slideMd :: rest, slideCount =>
    buildSlideRequests (parse slideMd) slideCount
        (times slideCount).1 (times slideCount).2.1 (times slideCount).2.2
      ++ convertRequestsAux parse times rest (slideCount + 1)

/-- The full `requests` array assembled by the `/convert` route for a list of
fragments, starting from `slideCount = 0`. -/
def convertRequests (parse : String → List Token) (slidesContent : List String)
    (times : Nat → Nat × Nat × Nat) : List MutationOp :=
  convertRequestsAux parse times slidesContent 0

/-- The object ids generated while assembling a batch: the `objectId` of
every `createSlide` and `createShape` request, in order. -/
def generatedIds : List MutationOp → List String
  | [] => []
  | MutationOp.createSlide objectId _ _ :: rest => objectId :: generatedIds rest
  | MutationOp.createShape objectId _ _ :: rest => objectId :: generatedIds rest
  | _ :: rest => generatedIds rest

/-- The credential pair stored by `oauth2Client.setCredentials`. -/
structure TokenPair where
  access_token : String
  refresh_token : String
deriving DecidableEq, Repr

/-- The `!!oauth2Client.credentials.access_token` test: a credential is
present when the slot holds a pair with a non-empty (truthy) access token. -/
def hasAccessToken : Option TokenPair → Bool
  | none => false
  | some t => t.access_token != ""

/-- Outcome of the OAuth callback route: a redirect or an error status. -/
inductive CallbackResult where
  | redirect (location : String)
  | errorStatus (status : Nat) (message : String)
deriving DecidableEq, Repr

/-- The `/auth/google/callback` handler (`server.js` lines 59-72): on a
successful token exchange the credential slot is overwritten and the
browser is redirected to `/`; when the exchange throws, the handler answers
with status 500 and the slot keeps its previous value.  Returns the new
slot contents together with the HTTP outcome. -/
def callbackHandler (credentials : Option TokenPair)
    (exchange : Except String TokenPair) : Option TokenPair × CallbackResult :=
  match exchange with
  | Except.ok tokens => (some tokens, CallbackResult.redirect ("/"))
  | Except.error _ =>
    (credentials, CallbackResult.errorStatus 500 ("Erro na autenticação com o Google."))

/-- An outgoing call to the external presentation service. -/
inductive ExternalCall where
  | presentationsCreate (title : String)
  | batchUpdate (requests : List MutationOp)
deriving DecidableEq, Repr

/-- The observable outcome of one `/convert` request: the HTTP status, the
external presentation-service calls made, and the rendered success URL. -/
structure ConvertResponse where
  status : Nat
  calls : List ExternalCall
  rendered : Option String
deriving DecidableEq, Repr

/-- The `/convert` handler (`server.js` lines 83-281) on its non-throwing
path: without a credential it answers 401 before any external call;
otherwise it segments the markdown, creates a presentation, assembles the
batch, submits it via `batchUpdate` only when `requests.length > 0`, and
renders the success view with the presentation's edit URL. -/
def convertHandler (credentials : Option TokenPair) (parse : String → List Token)
    (times : Nat → Nat × Nat × Nat) (presentationId : String)
    (markdownText : String) : ConvertResponse :=
  if !hasAccessToken credentials then
    { status := 401, calls := [], rendered := none }
  else
    let slidesContent := segment markdownText
    let requests := convertRequests parse slidesContent times
    { status := 200,
      calls := ExternalCall.presentationsCreate ("Apresentação Gerada do Markdown") ::
        (if requests.length > 0 then [ExternalCall.batchUpdate requests] else []),
      rendered := some ("https://docs.google.com/presentation/d/" ++ presentationId ++
        "/edit") }

/-! Lemmas about the token scan. -/

/-- The body accumulated by the scan does not depend on the running title. -/
theorem scanTokens_body_title (l : List Token) (t t' : String) (b : List String) :
    (scanTokens l t b).2 = (scanTokens l t' b).2 := by
  induction l, t, b using scanTokens.induct generalizing t' with
  | case1 t b => simp only [scanTokens]
  | case2 c rest t b ih => simp only [scanTokens]
  | case3 c rest t b ih => simp only [scanTokens]; exact ih _
  | case4 c rest t b ih => simp only [scanTokens]; exact ih _
  | case5 tok rest t b h1 h2 h3 ih =>
    cases tok <;> cases rest <;> simp_all [scanTokens] <;> exact ih _

/-- The scan splits over an append whenever the second part does not start
with an inline token (so no open-plus-inline pattern straddles the cut). -/
theorem scanTokens_append (l1 l2 : List Token) (t : String) (b : List String)
    (h : headIsInline l2 = false) :
    scanTokens (l1 ++ l2) t b =
      scanTokens l2 (scanTokens l1 t b).1 (scanTokens l1 t b).2 := by
  induction l1, t, b using scanTokens.induct with
  | case1 t b => simp [scanTokens]
  | case2 c rest t b ih => simpa [scanTokens] using ih
  | case3 c rest t b ih => simpa [scanTokens] using ih
  | case4 c rest t b ih => simpa [scanTokens] using ih
  | case5 tok rest t b h1 h2 h3 ih =>
    cases rest with
    | nil =>
      cases tok <;> simp only [scanTokens, List.cons_append, List.nil_append] <;>
        (cases l2 with
         | nil => simp [scanTokens]
         | cons y l2' => cases y <;> simp_all [scanTokens, headIsInline])
    | cons y rest' =>
      cases tok <;> cases y <;> simp_all [scanTokens]

/-- A token stream with no heading-open-plus-inline pattern never changes the
running title. -/
theorem scanTokens_title_of_no_pair (l : List Token) (t : String) (b : List String)
    (h : hasHeadingPair l = false) : (scanTokens l t b).1 = t := by
  induction l, t, b using scanTokens.induct with
  | case1 t b => simp only [scanTokens]
  | case2 c rest t b ih => simp [hasHeadingPair] at h
  | case3 c rest t b ih =>
    simp only [hasHeadingPair] at h
    simp only [scanTokens]
    exact ih h
  | case4 c rest t b ih =>
    simp only [hasHeadingPair] at h
    simp only [scanTokens]
    exact ih h
  | case5 tok rest t b h1 h2 h3 ih =>
    cases tok <;> cases rest <;> simp_all [scanTokens, hasHeadingPair]

/-- A token stream containing no `heading_open` token at all contains no
heading-open-plus-inline pattern. -/
theorem hasHeadingPair_eq_false (l : List Token) (h : Token.heading_open ∉ l) :
    hasHeadingPair l = false := by
  induction l with
  | nil => simp [hasHeadingPair]
  | cons a l ih =>
    simp only [List.mem_cons, not_or] at h
    cases a <;> simp_all [hasHeadingPair]

/-- The scan's body output is the accumulator followed by the spec-side
`specBodyLines` of the stream. -/
theorem scanTokens_body_spec (l : List Token) (t : String) (b : List String) :
    (scanTokens l t b).2 = b ++ specBodyLines l := by
  induction l, t, b using scanTokens.induct with
  | case1 t b => simp [scanTokens, specBodyLines]
  | case2 c rest t b ih => simpa [scanTokens, specBodyLines] using ih
  | case3 c rest t b ih => simp [scanTokens, specBodyLines, ih]
  | case4 c rest t b ih => simp [scanTokens, specBodyLines, ih]
  | case5 tok rest t b h1 h2 h3 ih =>
    cases tok <;> cases rest <;> simp_all [scanTokens, specBodyLines]

/-- `specBodyLines` produces one entry per paragraph/list-item block. -/
theorem specBodyLines_length (l : List Token) :
    (specBodyLines l).length = blockCount l := by
  induction l using specBodyLines.induct with
  | case1 c rest ih => simp [specBodyLines, blockCount, ih]; omega
  | case2 c rest ih => simp [specBodyLines, blockCount, ih]; omega
  | case3 tok rest h1 h2 ih =>
    cases tok <;> cases rest <;> simp_all [specBodyLines, blockCount]
  | case4 => simp [specBodyLines, blockCount]

/-! Lemmas about the segmenter. -/

/-- Mapping `trim` and filtering out the empty results is the same as
filtering-and-mapping in one pass over the raw pieces. -/
theorem filter_trim_eq_filterMap (l : List String) :
    (l.map jsTrim).filter (fun s => s != "") =
      l.filterMap (fun p => if jsTrim p = "" then none else some (jsTrim p)) := by
  induction l with
  | nil => simp
  | cons a l ih =>
    by_cases h : jsTrim a = "" <;> simp [h, ih]

/-- When every raw piece trims to the empty string, the segmenter returns
the empty list. -/
theorem segment_eq_nil (md : String) (h : ∀ s ∈ jsSplitDashes md, jsTrim s = "") :
    segment md = [] := by
  unfold segment
  rw [filter_trim_eq_filterMap, List.filterMap_eq_nil_iff]
  intro a ha
  simp [h a ha]

/-! Lemmas about the generated object identifiers. -/

/-- A character built from a decimal digit value keeps that value. -/
theorem char_ofNat_digit (k : Nat) (h : k < 10) : (Char.ofNat (48 + k)).toNat = 48 + k := by
  interval_cases k <;> decide

/-- The fuel-based digit conversion agrees with the reference recursion as
soon as the fuel exceeds the number. -/
theorem toDigitsAux_eq (fuel n : Nat) (acc : List Char) (h : n < fuel) :
    toDigitsAux fuel n acc = natDigitsRec n ++ acc := by
  induction fuel generalizing n acc with
  | zero => omega
  | succ fuel ih =>
    by_cases h10 : n < 10
    · rw [toDigitsAux, if_pos h10, natDigitsRec, if_pos h10]
      simp
    · rw [toDigitsAux, if_neg h10, natDigitsRec, if_neg h10]
      rw [ih (n / 10) _ (by omega)]
      simp

/-- Character-list contents of `natRepr`. -/
theorem natRepr_data (n : Nat) : (natRepr n).data = natDigitsRec n := by
  have h := toDigitsAux_eq (n + 1) n [] (by omega)
  simpa [natRepr] using h

/-- Every character of a decimal representation is a decimal digit. -/
theorem natDigitsRec_mem (n : Nat) : ∀ c ∈ natDigitsRec n, 48 ≤ c.toNat ∧ c.toNat ≤ 57 := by
  induction n using natDigitsRec.induct with
  | case1 n h =>
    intro c hc
    rw [natDigitsRec, if_pos h] at hc
    simp only [List.mem_singleton] at hc
    subst hc
    have := char_ofNat_digit (n % 10) (Nat.mod_lt _ (by omega))
    omega
  | case2 n h ih =>
    intro c hc
    rw [natDigitsRec, if_neg h] at hc
    rcases List.mem_append.mp hc with hc | hc
    · exact ih c hc
    · simp only [List.mem_singleton] at hc
      subst hc
      have := char_ofNat_digit (n % 10) (Nat.mod_lt _ (by omega))
      omega

/-- The underscore separator never occurs among decimal digits. -/
theorem underscore_not_mem_natDigitsRec (n : Nat) : '_' ∉ natDigitsRec n := by
  intro h
  have := natDigitsRec_mem n _ h
  have hu : ('_').toNat = 95 := by decide
  omega

/-- Reading the decimal digits back yields the original number. -/
theorem digitsToNat_natDigitsRec (n : Nat) : digitsToNat (natDigitsRec n) = n := by
  induction n using natDigitsRec.induct with
  | case1 n h =>
    rw [natDigitsRec, if_pos h]
    simp [digitsToNat, char_ofNat_digit (n % 10) (Nat.mod_lt _ (by omega))]
    omega
  | case2 n h ih =>
    rw [natDigitsRec, if_neg h]
    simp only [digitsToNat, List.foldl_append] at ih ⊢
    rw [ih]
    simp [char_ofNat_digit (n % 10) (Nat.mod_lt _ (by omega))]
    omega

/-- Decimal representations are injective. -/
theorem natDigitsRec_inj {m n : Nat} (h : natDigitsRec m = natDigitsRec n) : m = n := by
  have := congrArg digitsToNat h
  rwa [digitsToNat_natDigitsRec, digitsToNat_natDigitsRec] at this

/-- Two occurrences of a separator character, each followed only by
separator-free tails, cut an equal list at the same place. -/
theorem sep_last_inj : ∀ (x1 x2 y1 y2 : List Char),
    x1 ++ '_' :: y1 = x2 ++ '_' :: y2 → '_' ∉ y1 → '_' ∉ y2 → y1 = y2 := by
  intro x1
  induction x1 with
  | nil =>
    intro x2 y1 y2 h h1 h2
    cases x2 with
    | nil => simpa using h
    | cons a x2' =>
      simp only [List.nil_append, List.cons_append, List.cons.injEq] at h
      exact absurd (h.2 ▸ List.mem_append_right x2' (List.mem_cons_self '_' y2)) h1
  | cons a x1' ih =>
    intro x2 y1 y2 h h1 h2
    cases x2 with
    | nil =>
      simp only [List.nil_append, List.cons_append, List.cons.injEq] at h
      exact absurd (h.2.symm ▸ List.mem_append_right x1' (List.mem_cons_self '_' y1)) h2
    | cons b x2' =>
      simp only [List.cons_append, List.cons.injEq] at h
      exact ih x2' y1 y2 h.2 h1 h2

/-- Character-list contents of a slide object id. -/
theorem slideObjectId_data (u i : Nat) :
    (slideObjectId u i).data =
      ['s', 'l', 'i', 'd', 'e', '_'] ++ (natDigitsRec u ++ '_' :: natDigitsRec i) := by
  have hp : ("slide_").data = ['s', 'l', 'i', 'd', 'e', '_'] := rfl
  have hs : ("_").data = ['_'] := rfl
  simp [slideObjectId, String.data_append, natRepr_data, hp, hs]

/-- Character-list contents of a title shape object id. -/
theorem titleShapeObjectId_data (u i : Nat) :
    (titleShapeObjectId u i).data =
      ['t', 'i', 't', 'l', 'e', '_', 's', 'h', 'a', 'p', 'e', '_'] ++
        (natDigitsRec u ++ '_' :: natDigitsRec i) := by
  have hp : ("title_shape_").data =
      ['t', 'i', 't', 'l', 'e', '_', 's', 'h', 'a', 'p', 'e', '_'] := rfl
  have hs : ("_").data = ['_'] := rfl
  simp [titleShapeObjectId, String.data_append, natRepr_data, hp, hs]

/-- Character-list contents of a body shape object id. -/
theorem bodyShapeObjectId_data (u i : Nat) :
    (bodyShapeObjectId u i).data =
      ['b', 'o', 'd', 'y', '_', 's', 'h', 'a', 'p', 'e', '_'] ++
        (natDigitsRec u ++ '_' :: natDigitsRec i) := by
  have hp : ("body_shape_").data =
      ['b', 'o', 'd', 'y', '_', 's', 'h', 'a', 'p', 'e', '_'] := rfl
  have hs : ("_").data = ['_'] := rfl
  simp [bodyShapeObjectId, String.data_append, natRepr_data, hp, hs]

/-- Equal slide ids have equal slide indices, whatever the timestamps. -/
theorem slideObjectId_index_inj {u v i j : Nat}
    (h : slideObjectId u i = slideObjectId v j) : i = j := by
  have hd := congrArg String.data h
  rw [slideObjectId_data, slideObjectId_data] at hd
  have hd' := List.append_cancel_left hd
  exact natDigitsRec_inj (sep_last_inj _ _ _ _ hd'
    (underscore_not_mem_natDigitsRec i) (underscore_not_mem_natDigitsRec j))

/-- Equal title shape ids have equal slide indices. -/
theorem titleShapeObjectId_index_inj {u v i j : Nat}
    (h : titleShapeObjectId u i = titleShapeObjectId v j) : i = j := by
  have hd := congrArg String.data h
  rw [titleShapeObjectId_data, titleShapeObjectId_data] at hd
  have hd' := List.append_cancel_left hd
  exact natDigitsRec_inj (sep_last_inj _ _ _ _ hd'
    (underscore_not_mem_natDigitsRec i) (underscore_not_mem_natDigitsRec j))

/-- Equal body shape ids have equal slide indices. -/
theorem bodyShapeObjectId_index_inj {u v i j : Nat}
    (h : bodyShapeObjectId u i = bodyShapeObjectId v j) : i = j := by
  have hd := congrArg String.data h
  rw [bodyShapeObjectId_data, bodyShapeObjectId_data] at hd
  have hd' := List.append_cancel_left hd
  exact natDigitsRec_inj (sep_last_inj _ _ _ _ hd'
    (underscore_not_mem_natDigitsRec i) (underscore_not_mem_natDigitsRec j))

/-- A slide id never equals a title shape id. -/
theorem slideObjectId_ne_titleShapeObjectId (u i v j : Nat) :
    slideObjectId u i ≠ titleShapeObjectId v j := by
  intro h
  have hd := congrArg String.data h
  rw [slideObjectId_data, titleShapeObjectId_data] at hd
  simp at hd

/-- A slide id never equals a body shape id. -/
theorem slideObjectId_ne_bodyShapeObjectId (u i v j : Nat) :
    slideObjectId u i ≠ bodyShapeObjectId v j := by
  intro h
  have hd := congrArg String.data h
  rw [slideObjectId_data, bodyShapeObjectId_data] at hd
  simp at hd

/-- A title shape id never equals a body shape id. -/
theorem titleShapeObjectId_ne_bodyShapeObjectId (u i v j : Nat) :
    titleShapeObjectId u i ≠ bodyShapeObjectId v j := by
  intro h
  have hd := congrArg String.data h
  rw [titleShapeObjectId_data, bodyShapeObjectId_data] at hd
  simp at hd

/-! Lemmas about the ids generated for a whole batch. -/

/-- `generatedIds` distributes over request-list concatenation. -/
theorem generatedIds_append (l1 l2 : List MutationOp) :
    generatedIds (l1 ++ l2) = generatedIds l1 ++ generatedIds l2 := by
  induction l1 with
  | nil => simp [generatedIds]
  | cons a l1 ih => cases a <;> simp [generatedIds, ih]

/-- The ids generated for one fragment are its slide id, title shape id and
body shape id, in order. -/
theorem generatedIds_build (tokens : List Token) (i now1 now2 now3 : Nat) :
    generatedIds (buildSlideRequests tokens i now1 now2 now3) =
      [slideObjectId now1 i, titleShapeObjectId now2 i, bodyShapeObjectId now3 i] := rfl

/-- Every id generated by the conversion loop started at index `k` belongs to
a fragment index at least `k`. -/
theorem mem_generatedIds_aux (parse : String → List Token)
    (times : Nat → Nat × Nat × Nat) :
    ∀ (fs : List String) (k : Nat) (s : String),
      s ∈ generatedIds (convertRequestsAux parse times fs k) →
      ∃ j, k ≤ j ∧ ∃ u, s = slideObjectId u j ∨ s = titleShapeObjectId u j ∨
        s = bodyShapeObjectId u j := by
  intro fs
  induction fs with
  | nil => intro k s h; simp [convertRequestsAux, generatedIds] at h
  | cons f fs ih =>
    intro k s h
    rw [convertRequestsAux, generatedIds_append, generatedIds_build] at h
    rcases List.mem_append.mp h with h | h
    · simp only [List.mem_cons, List.mem_singleton, List.not_mem_nil, or_false] at h
      rcases h with h | h | h
      · exact ⟨k, le_refl k, (times k).1, Or.inl h⟩
      · exact ⟨k, le_refl k, (times k).2.1, Or.inr (Or.inl h)⟩
      · exact ⟨k, le_refl k, (times k).2.2, Or.inr (Or.inr h)⟩
    · obtain ⟨j, hj, u, hu⟩ := ih (k + 1) s h
      exact ⟨j, by omega, u, hu⟩

/-- No id generated by the loop at index `k` reappears among the ids of the
later fragments. -/
theorem generatedIds_nodup_aux (parse : String → List Token)
    (times : Nat → Nat × Nat × Nat) :
    ∀ (fs : List String) (k : Nat),
      (generatedIds (convertRequestsAux parse times fs k)).Nodup := by
  intro fs
  induction fs with
  | nil => intro k; simp [convertRequestsAux, generatedIds]
  | cons f fs ih =>
    intro k
    rw [convertRequestsAux, generatedIds_append, generatedIds_build]
    have htail := ih (k + 1)
    have hslide : slideObjectId (times k).1 k ∉
        generatedIds (convertRequestsAux parse times fs (k + 1)) := by
      intro hmem
      obtain ⟨j, hj, u, hu | hu | hu⟩ := mem_generatedIds_aux parse times fs (k + 1) _ hmem
      · have := slideObjectId_index_inj hu
        omega
      · exact slideObjectId_ne_titleShapeObjectId _ _ _ _ hu
      · exact slideObjectId_ne_bodyShapeObjectId _ _ _ _ hu
    have htitle : titleShapeObjectId (times k).2.1 k ∉
        generatedIds (convertRequestsAux parse times fs (k + 1)) := by
      intro hmem
      obtain ⟨j, hj, u, hu | hu | hu⟩ := mem_generatedIds_aux parse times fs (k + 1) _ hmem
      · exact slideObjectId_ne_titleShapeObjectId _ _ _ _ hu.symm
      · have := titleShapeObjectId_index_inj hu
        omega
      · exact titleShapeObjectId_ne_bodyShapeObjectId _ _ _ _ hu
    have hbody : bodyShapeObjectId (times k).2.2 k ∉
        generatedIds (convertRequestsAux parse times fs (k + 1)) := by
      intro hmem
      obtain ⟨j, hj, u, hu | hu | hu⟩ := mem_generatedIds_aux parse times fs (k + 1) _ hmem
      · exact slideObjectId_ne_bodyShapeObjectId _ _ _ _ hu.symm
      · exact titleShapeObjectId_ne_bodyShapeObjectId _ _ _ _ hu.symm
      · have := bodyShapeObjectId_index_inj hu
        omega
    simp only [List.cons_append, List.nil_append, List.nodup_cons, List.mem_cons,
      List.mem_append, not_or]
    refine ⟨⟨?_, ?_, hslide⟩, ⟨?_, htitle⟩, hbody, htail⟩
    · exact slideObjectId_ne_titleShapeObjectId _ _ _ _
    · exact slideObjectId_ne_bodyShapeObjectId _ _ _ _
    · exact titleShapeObjectId_ne_bodyShapeObjectId _ _ _ _

/-- The third request pushed for a fragment is always the title `insertText`
with the title-or-fallback text. -/
theorem buildSlideRequests_titleText (tokens : List Token) (i now1 now2 now3 : Nat) :
    (buildSlideRequests tokens i now1 now2 now3).get? 2 =
      some (MutationOp.insertText (titleShapeObjectId now2 i)
        (if (scanSlide tokens).title = "" then "Slide " ++ natRepr (i + 1)
         else (scanSlide tokens).title)) := rfl

/-- Modelled from the spec: the Block Token stream the external markdown-it
collaborator produces for the fragment `- a\n- b` of the spec's worked
example, following the spec's Block Token data model (a list-item block is a
`list_item_open` token immediately followed by its `inline` content token;
the enclosing bullet-list tokens are of the ignored kinds). -/
def exampleListTokens : List Token :=
  [Token.bullet_list_open,
   Token.list_item_open, Token.inline ("a"), Token.list_item_close,
   Token.list_item_open, Token.inline ("b"), Token.list_item_close,
   Token.bullet_list_close]

/-! Claim theorems. -/

/-- C1: for every fragment, `build` emits exactly 7 MutationOps, appended in
the fixed order createSlide (layout `TITLE_AND_BODY`, insertionIndex = the
fragment index), createShape for the title box (translate (50,50) pt, size
600×50 pt), insertText into the title box, updateTextStyle on the title box
(bold, 24pt, range ALL), createShape for the body box (translate (50,120)
pt, size 600×350 pt), insertText into the body box with the body lines
joined by a blank line, and updateTextStyle on the body box (14pt, range
ALL) — never fewer and never a partial group. -/
theorem c1_build_emits_seven_ops (tokens : List Token) (i now1 now2 now3 : Nat) :
    buildSlideRequests tokens i now1 now2 now3 =
      [MutationOp.createSlide (slideObjectId now1 i) i "TITLE_AND_BODY",
       MutationOp.createShape (titleShapeObjectId now2 i) "TEXT_BOX"
         { pageObjectId := slideObjectId now1 i,
           transform := { scaleX := 1, scaleY := 1, translateX := 50, translateY := 50,
                          unit := "PT" },
           size := { width := { magnitude := 600, unit := "PT" },
                     height := { magnitude := 50, unit := "PT" } } },
       MutationOp.insertText (titleShapeObjectId now2 i)
         (if (scanSlide tokens).title = "" then "Slide " ++ natRepr (i + 1)
          else (scanSlide tokens).title),
       MutationOp.updateTextStyle (titleShapeObjectId now2 i) "ALL"
         { fontSize := { magnitude := 24, unit := "PT" }, bold := some true }
         "fontSize,bold",
       MutationOp.createShape (bodyShapeObjectId now3 i) "TEXT_BOX"
         { pageObjectId := slideObjectId now1 i,
           transform := { scaleX := 1, scaleY := 1, translateX := 50, translateY := 120,
                          unit := "PT" },
           size := { width := { magnitude := 600, unit := "PT" },
                     height := { magnitude := 350, unit := "PT" } } },
       MutationOp.insertText (bodyShapeObjectId now3 i)
         (String.intercalate "\n\n" (scanSlide tokens).body),
       MutationOp.updateTextStyle (bodyShapeObjectId now3 i) "ALL"
         { fontSize := { magnitude := 14, unit := "PT" }, bold := none }
         "fontSize"] := rfl

/-- C2: for every fragment, `bodyLines` has exactly one entry per
paragraph/list-item block (an opening token immediately followed by its
inline token), in document order, the entry being the inline token's text
with list-item entries carrying the bullet marker; in particular the
spec-modelled token stream of `- a\n- b` yields `["• a", "• b"]`. -/
theorem c2_bodyLines_characterization :
    (∀ tokens : List Token, (scanSlide tokens).body = specBodyLines tokens)
    ∧ (∀ tokens : List Token, (specBodyLines tokens).length = blockCount tokens)
    ∧ (scanSlide exampleListTokens).body = ["• a", "• b"] :=
  ⟨fun tokens => by simpa [scanSlide] using scanTokens_body_spec tokens "" [],
   specBodyLines_length,
   by decide⟩

/-- C3: `segment` returns exactly the delimiter-separated pieces that are
non-empty after trimming, each piece trimmed, in their original order (a
single filter-map pass over the raw `split('---')` pieces); a document all
of whose pieces trim to nothing yields the empty sequence. -/
theorem c3_segment_characterization (D : String) :
    segment D = (jsSplitDashes D).filterMap
        (fun p => if jsTrim p = "" then none else some (jsTrim p))
    ∧ ((∀ s ∈ jsSplitDashes D, jsTrim s = "") → segment D = []) :=
  ⟨filter_trim_eq_filterMap (jsSplitDashes D), segment_eq_nil D⟩

/-- Witness for C3 at the delimiter-and-whitespace document `" --- \t --- "`. -/
theorem c3_witness :
    (∀ s ∈ jsSplitDashes (" --- \t --- "), jsTrim s = "")
    ∧ segment (" --- \t --- ") = [] :=
  ⟨by decide, (c3_segment_characterization (" --- \t --- ")).2 (by decide)⟩

/-- Counterexample to C4 as stated: in the fragment whose tokens are
`# A` followed by `# B`, the first block is a heading with inline text
`"A"`, yet the resulting slide title is `"B"` (the later heading overwrote
it), so the title does not equal the first heading's text. -/
theorem c4_counterexample :
    (scanSlide [Token.heading_open, Token.inline ("A"), Token.heading_close,
        Token.heading_open, Token.inline ("B"), Token.heading_close]).title = "B"
    ∧ ¬ (scanSlide [Token.heading_open, Token.inline ("A"), Token.heading_close,
        Token.heading_open, Token.inline ("B"), Token.heading_close]).title = "A" := by
  decide

/-- C4 (amended): for every fragment whose first block is a heading with
inline text `c` and that contains no later heading-open-plus-inline pattern,
the slide title equals `c` exactly and the heading's inline token is
consumed with the heading-open token (the body is the same as if both were
absent, so the text is never reprocessed as a body line); and for every
fragment containing no heading token, the text inserted into the title
shape is the fallback `"Slide " + (index + 1)`. -/
theorem c4_title_first_heading (c : String) (rest tokens : List Token)
    (i now1 now2 now3 : Nat)
    (h1 : hasHeadingPair rest = false) (h2 : Token.heading_open ∉ tokens) :
    (scanSlide (Token.heading_open :: Token.inline c :: rest)).title = c
    ∧ (scanSlide (Token.heading_open :: Token.inline c :: rest)).body =
        (scanSlide rest).body
    ∧ (buildSlideRequests tokens i now1 now2 now3).get? 2 =
        some (MutationOp.insertText (titleShapeObjectId now2 i)
          ("Slide " ++ natRepr (i + 1))) := by
  refine ⟨?_, ?_, ?_⟩
  · show (scanTokens (Token.heading_open :: Token.inline c :: rest) "" []).1 = c
    simp only [scanTokens]
    exact scanTokens_title_of_no_pair rest c [] h1
  · show (scanTokens (Token.heading_open :: Token.inline c :: rest) "" []).2 =
      (scanTokens rest "" []).2
    simp only [scanTokens]
    exact scanTokens_body_title rest c "" []
  · have htitle : (scanSlide tokens).title = "" :=
      scanTokens_title_of_no_pair tokens "" [] (hasHeadingPair_eq_false tokens h2)
    rw [buildSlideRequests_titleText, htitle, if_pos rfl]

/-- Witness for C4 (amended) at the fragment `# Hello` + `World` and a
heading-free fragment at index 1. -/
theorem c4_witness :
    hasHeadingPair [Token.heading_close, Token.paragraph_open, Token.inline ("World"),
        Token.paragraph_close] = false
    ∧ Token.heading_open ∉ [Token.paragraph_open, Token.inline ("x"),
        Token.paragraph_close]
    ∧ ((scanSlide (Token.heading_open :: Token.inline ("Hello") ::
          [Token.heading_close, Token.paragraph_open, Token.inline ("World"),
           Token.paragraph_close])).title = "Hello"
       ∧ (scanSlide (Token.heading_open :: Token.inline ("Hello") ::
          [Token.heading_close, Token.paragraph_open, Token.inline ("World"),
           Token.paragraph_close])).body =
          (scanSlide [Token.heading_close, Token.paragraph_open, Token.inline ("World"),
           Token.paragraph_close]).body
       ∧ (buildSlideRequests [Token.paragraph_open, Token.inline ("x"),
            Token.paragraph_close] 1 7 8 9).get? 2 =
          some (MutationOp.insertText (titleShapeObjectId 8 1)
            ("Slide " ++ natRepr (1 + 1)))) :=
  ⟨by decide, by decide,
   c4_title_first_heading ("Hello")
     [Token.heading_close, Token.paragraph_open, Token.inline ("World"),
      Token.paragraph_close]
     [Token.paragraph_open, Token.inline ("x"), Token.paragraph_close]
     1 7 8 9 (by decide) (by decide)⟩

/-- C5: within one assembled batch, the generated object identifiers (slide
id, title-shape id and body-shape id of every fragment) are pairwise
distinct for every possible assignment of `Date.now()` readings — in
particular when every reading falls in the same timer tick. -/
theorem c5_generated_ids_nodup (parse : String → List Token) (frags : List String)
    (times : Nat → Nat × Nat × Nat) :
    (generatedIds (convertRequests parse frags times)).Nodup :=
  generatedIds_nodup_aux parse times frags 0

/-- C6: a `/convert` request arriving while no access token is present is
answered with status 401 and no external presentation-service call is
attempted. -/
theorem c6_unauthenticated_401 (credentials : Option TokenPair)
    (parse : String → List Token) (times : Nat → Nat × Nat × Nat)
    (presentationId markdownText : String)
    (h : hasAccessToken credentials = false) :
    convertHandler credentials parse times presentationId markdownText =
      { status := 401, calls := [], rendered := none } := by
  simp [convertHandler, h]

/-- Witness for C6 at an empty credential slot. -/
theorem c6_witness :
    hasAccessToken none = false
    ∧ convertHandler none (fun _ => []) (fun _ => (0, 0, 0)) ("p") ("# Hi") =
        { status := 401, calls := [], rendered := none } :=
  ⟨rfl, c6_unauthenticated_401 none (fun _ => []) (fun _ => (0, 0, 0)) ("p") ("# Hi") rfl⟩

/-- C7: when the OAuth token exchange throws, the callback route answers
with status 500 and the credential slot keeps its previous value;
`setCredentials` happens only on a successful exchange, which stores the
exchanged pair and redirects to `/`. -/
theorem c7_exchange_failure (credentials : Option TokenPair) (msg : String)
    (tokens : TokenPair) :
    callbackHandler credentials (Except.error msg) =
      (credentials,
       CallbackResult.errorStatus 500 ("Erro na autenticação com o Google."))
    ∧ callbackHandler credentials (Except.ok tokens) =
      (some tokens, CallbackResult.redirect ("/")) :=
  ⟨rfl, rfl⟩

/-- C8: an authenticated `/convert` whose markdown consists only of
delimiters and whitespace still creates a presentation and renders the
success view with the edit URL, but the batchUpdate call is skipped
entirely. -/
theorem c8_empty_markdown_skips_batchUpdate (credentials : Option TokenPair)
    (parse : String → List Token) (times : Nat → Nat × Nat × Nat)
    (presentationId markdownText : String)
    (hauth : hasAccessToken credentials = true)
    (hmd : ∀ s ∈ jsSplitDashes markdownText, jsTrim s = "") :
    convertHandler credentials parse times presentationId markdownText =
      { status := 200,
        calls := [ExternalCall.presentationsCreate ("Apresentação Gerada do Markdown")],
        rendered := some ("https://docs.google.com/presentation/d/" ++ presentationId ++
          "/edit") } := by
  have hseg := segment_eq_nil markdownText hmd
  simp [convertHandler, hauth, hseg, convertRequests, convertRequestsAux]

/-- Witness for C8 at the whitespace-and-delimiter document `" --- "`. -/
theorem c8_witness :
    hasAccessToken (some { access_token := "t", refresh_token := "r" }) = true
    ∧ (∀ s ∈ jsSplitDashes (" --- "), jsTrim s = "")
    ∧ convertHandler (some { access_token := "t", refresh_token := "r" })
        (fun _ => []) (fun _ => (0, 0, 0)) ("pid") (" --- ") =
      { status := 200,
        calls := [ExternalCall.presentationsCreate ("Apresentação Gerada do Markdown")],
        rendered := some ("https://docs.google.com/presentation/d/" ++ "pid" ++
          "/edit") } :=
  ⟨by decide, by decide,
   c8_empty_markdown_skips_batchUpdate (some { access_token := "t", refresh_token := "r" })
     (fun _ => []) (fun _ => (0, 0, 0)) ("pid") (" --- ") (by decide) (by decide)⟩

/-- C9: the text inserted into the title shape is never empty — whenever the
extracted title is the empty string (a missing heading, or a heading whose
inline content is empty) the fallback `"Slide " + (index + 1)` is inserted
instead. -/
theorem c9_title_text_never_empty (tokens : List Token) (i now1 now2 now3 : Nat) :
    (buildSlideRequests tokens i now1 now2 now3).get? 2 =
      some (MutationOp.insertText (titleShapeObjectId now2 i)
        (if (scanSlide tokens).title = "" then "Slide " ++ natRepr (i + 1)
         else (scanSlide tokens).title))
    ∧ (if (scanSlide tokens).title = "" then "Slide " ++ natRepr (i + 1)
       else (scanSlide tokens).title) ≠ "" := by
  refine ⟨buildSlideRequests_titleText tokens i now1 now2 now3, ?_⟩
  by_cases h : (scanSlide tokens).title = ""
  · rw [if_pos h]
    intro hc
    have hd := congrArg String.data hc
    rw [String.data_append] at hd
    have hp : ("Slide ").data = ['S', 'l', 'i', 'd', 'e', ' '] := rfl
    rw [hp] at hd
    simp at hd
  · rwa [if_neg h]

/-- C10: when a fragment's token stream contains several heading blocks, the
slide title equals the text of the last heading-open-plus-inline pair (each
heading overwrites the previous title), and a heading's inline text never
leaks into the body lines (the body is unchanged under any replacement of
the heading text). -/
theorem c10_last_heading_wins (pre post : List Token) (c c' : String) :
    (hasHeadingPair post = false →
      (scanSlide (pre ++ Token.heading_open :: Token.inline c :: post)).title = c)
    ∧ (scanSlide (pre ++ Token.heading_open :: Token.inline c :: post)).body =
        (scanSlide (pre ++ Token.heading_open :: Token.inline c' :: post)).body := by
  have hh : headIsInline (Token.heading_open :: Token.inline c :: post) = false := rfl
  have hh' : headIsInline (Token.heading_open :: Token.inline c' :: post) = false := rfl
  constructor
  · intro h
    show (scanTokens (pre ++ Token.heading_open :: Token.inline c :: post) "" []).1 = c
    rw [scanTokens_append _ _ _ _ hh]
    simp only [scanTokens]
    exact scanTokens_title_of_no_pair post c _ h
  · show (scanTokens (pre ++ Token.heading_open :: Token.inline c :: post) "" []).2 =
      (scanTokens (pre ++ Token.heading_open :: Token.inline c' :: post) "" []).2
    rw [scanTokens_append _ _ _ _ hh, scanTokens_append _ _ _ _ hh']
    simp only [scanTokens]
    exact scanTokens_body_title post c c' _

/-- Witness for C10 at the two-heading fragment `# A` + `# B`. -/
theorem c10_witness :
    hasHeadingPair [Token.heading_close] = false
    ∧ (scanSlide ([Token.heading_open, Token.inline ("A"), Token.heading_close] ++
        Token.heading_open :: Token.inline ("B") :: [Token.heading_close])).title = "B"
    ∧ (scanSlide ([Token.heading_open, Token.inline ("A"), Token.heading_close] ++
        Token.heading_open :: Token.inline ("B") :: [Token.heading_close])).body =
      (scanSlide ([Token.heading_open, Token.inline ("A"), Token.heading_close] ++
        Token.heading_open :: Token.inline ("C") :: [Token.heading_close])).body :=
  ⟨by decide,
   (c10_last_heading_wins [Token.heading_open, Token.inline ("A"), Token.heading_close]
      [Token.heading_close] ("B") ("C")).1 (by decide),
   (c10_last_heading_wins [Token.heading_open, Token.inline ("A"), Token.heading_close]
      [Token.heading_close] ("B") ("C")).2⟩

end MdToSlides
